import Mathlib

/-!
OV5647 camera sensor driver: register sequencing and control conversions

A shallow embedding of `Drivers/BSP/Components/ov5647/ov5647.c` and
`ov5647_reg.c`.

* Machine integers are `Nat`/`Int`; a narrowing store is an explicit `% 2^w`.
* The register bus is the pair of callbacks held in `ov5647_ctx_t`.  A callback
  is an arbitrary deterministic environment: its status (and, for a read, the
  byte it leaves in the caller's buffer) is a function of every transaction
  issued so far and of the arguments of the call.
* Every call of a callback appends one `BusOp` to the trace, whether or not the
  callback reports success.
* The file-scope statics `s_hts`, `s_vts`, `s_pclk`, `s_fps` live in `State`
  next to the trace; the `IsInitialized` flag lives in the object.
-/

namespace OV5647

/-! ## Constants (`ov5647_reg.h`, `ov5647.h`) -/

def OV5647_OK : Int := 0
def OV5647_ERROR : Int := -1

def OV5647_MODE_STANDBY : Nat := 0x00
def OV5647_REG_MODE_SELECT : Nat := 0x0100
def OV5647_REG_SW_RESET : Nat := 0x0103
def OV5647_REG_CHIP_ID_HIGH : Nat := 0x300A
def OV5647_REG_CHIP_ID_LOW : Nat := 0x300B
def OV5647_REG_HTS_H : Nat := 0x380C
def OV5647_REG_HTS_L : Nat := 0x380D
def OV5647_REG_VTS_H : Nat := 0x380E
def OV5647_REG_VTS_L : Nat := 0x380F
def OV5647_REG_GAIN_H : Nat := 0x350A
def OV5647_REG_GAIN_L : Nat := 0x350B
def OV5647_GAIN_MIN_MDB : Int := 0
def OV5647_GAIN_MAX_MDB : Int := 4800

def OV5647_REG_TIMING_TC_REG20 : Nat := 0x3820
def OV5647_REG_TIMING_TC_REG21 : Nat := 0x3821
def OV5647_REG_EXPOSURE_H : Nat := 0x3500
def OV5647_REG_EXPOSURE_M : Nat := 0x3501
def OV5647_REG_EXPOSURE_L : Nat := 0x3502
def OV5647_REG_TEST_PATTERN : Nat := 0x503D
def OV5647_EXPOSURE_MIN_US : Int := 50
def OV5647_FLIP : Nat := 0x01
def OV5647_MIRROR : Nat := 0x02
def OV5647_MIRROR_FLIP : Nat := 0x03

/-- The resolution selector of the 1920x1080 mode.  `ov5647_reg.h` defines it as
`(1u)` and `ov5647.h`, which includes that header first, defines it again as
`7U`; the later definition is the one in force where `ov5647.c` uses it. -/
def OV5647_R1920_1080 : Nat := 7

/-- The other resolution selector named by the headers (again the later,
`ov5647.h`, value); `OV5647_Init` has no case for it. -/
def OV5647_R2592_1944 : Nat := 6

/-! ## Data model -/

/-- The table element `struct regval { uint16_t addr; uint8_t val; }`. -/
structure regval where
  addr : Nat
  val : Nat
deriving DecidableEq, Repr

/-- One call of a bus callback.  Every call site of the driver passes a one-byte
buffer, so a write carries the byte it sends and its `length` argument, and a
read carries its `length` argument. -/
inductive BusOp where
  | write (reg : Nat) (data : Nat) (length : Nat)
  | read (reg : Nat) (length : Nat)
deriving DecidableEq, Repr

/-- The bus transactions issued so far, oldest first. -/
abbrev Trace := List BusOp

/-- The callbacks of `ov5647_ctx_t` (the `handle` is folded into them).
`WriteReg hist reg data length` is the status of a write; `ReadReg hist reg buf
length` is the status of a read and the content of the one-byte buffer after the
call, `buf` being its content before.  Status `0` is success. -/
structure ov5647_ctx_t where
  WriteReg : Trace → Nat → Nat → Nat → Int
  ReadReg : Trace → Nat → Nat → Nat → Int × Nat

/-- The driver object `OV5647_Object_t`; its `IO` member is only touched by bus
registration and is left out. -/
structure OV5647_Object_t where
  Ctx : ov5647_ctx_t
  IsInitialized : Nat

/-- What the driver mutates besides the object: the bus trace and the timing
cache statics of `ov5647.c`. -/
structure State where
  trace : Trace
  s_hts : Nat
  s_vts : Nat
  s_pclk : Nat
  s_fps : Int

/-- The statics as their initialisers leave them (`s_hts = 0`, `s_vts = 0`,
`s_pclk = 0`, `s_fps = 30`), with no bus traffic yet. -/
def State.boot : State :=
  { trace := [], s_hts := 0, s_vts := 0, s_pclk := 0, s_fps := 30 }

/-! ## Low-level register access (`ov5647_reg.c`) -/

/-- The C function `ov5647_write_reg`: forwards to the write callback. -/
def ov5647_write_reg (ctx : ov5647_ctx_t) (reg data length : Nat) (tr : Trace) :
    Int × Trace :=
  (ctx.WriteReg tr reg data length, tr ++ [BusOp.write reg data length])

/-- The C function `ov5647_read_reg`: forwards to the read callback; the buffer
is a `uint8_t`, so the byte handed back is reduced modulo 256. -/
def ov5647_read_reg (ctx : ov5647_ctx_t) (reg buf length : Nat) (tr : Trace) :
    Int × Nat × Trace :=
  ((ctx.ReadReg tr reg buf length).1, (ctx.ReadReg tr reg buf length).2 % 256,
    tr ++ [BusOp.read reg length])

/-! ## Table engine and timing cache (`ov5647.c`) -/

/-- The C function `OV5647_WriteTable`: the `for` loop over `regs[0..size)`, the
list standing for the array together with its `size`. -/
def OV5647_WriteTable (pObj : OV5647_Object_t) : List regval → Trace → Int × Trace
  | [], tr => (OV5647_OK, tr)
  | r :: rest, tr =>
    if (ov5647_write_reg pObj.Ctx r.addr r.val 1 tr).1 ≠ 0 then
      (OV5647_ERROR, (ov5647_write_reg pObj.Ctx r.addr r.val 1 tr).2)
    else
      OV5647_WriteTable pObj rest (ov5647_write_reg pObj.Ctx r.addr r.val 1 tr).2

/-- The C function `ov5647_update_timing_cache`, whose body is empty. -/
def ov5647_update_timing_cache (_pObj : OV5647_Object_t) (_fps_nominal : Int)
    (st : State) : State :=
  st

/-- The mode table `ov5647_1920x1080_regs`, entry for entry. -/
def ov5647_1920x1080_regs : List regval :=
  [
    regval.mk 0x0100 0x00, regval.mk 0x0103 0x01, regval.mk 0x3034 0x1A, regval.mk 0x3035 0x21,
    regval.mk 0x3036 0x62, regval.mk 0x303C 0x11, regval.mk 0x3106 0xF5, regval.mk 0x3820 0x46,
    regval.mk 0x3821 0x06, regval.mk 0x3827 0xEC, regval.mk 0x370C 0x03, regval.mk 0x3612 0x5B,
    regval.mk 0x3618 0x04, regval.mk 0x5000 0x06, regval.mk 0x5002 0x41, regval.mk 0x5003 0x08,
    regval.mk 0x5A00 0x08, regval.mk 0x3000 0x00, regval.mk 0x3001 0x00, regval.mk 0x3002 0x00,
    regval.mk 0x3016 0x08, regval.mk 0x3017 0xE0, regval.mk 0x3018 0x44, regval.mk 0x301C 0xF8,
    regval.mk 0x301D 0xF0, regval.mk 0x3A18 0x00, regval.mk 0x3A19 0xF8, regval.mk 0x3C01 0x80,
    regval.mk 0x3B07 0x0C, regval.mk 0x380C 0x09, regval.mk 0x380D 0x70, regval.mk 0x380E 0x04,
    regval.mk 0x380F 0x50, regval.mk 0x3814 0x11, regval.mk 0x3815 0x11, regval.mk 0x3708 0x64,
    regval.mk 0x3709 0x12, regval.mk 0x3808 0x07, regval.mk 0x3809 0x80, regval.mk 0x380A 0x04,
    regval.mk 0x380B 0x38, regval.mk 0x3800 0x01, regval.mk 0x3801 0x5C, regval.mk 0x3802 0x01,
    regval.mk 0x3803 0xB2, regval.mk 0x3804 0x08, regval.mk 0x3805 0xE3, regval.mk 0x3806 0x05,
    regval.mk 0x3807 0xF1, regval.mk 0x3811 0x04, regval.mk 0x3813 0x02, regval.mk 0x3630 0x2E,
    regval.mk 0x3632 0xE2, regval.mk 0x3633 0x23, regval.mk 0x3634 0x44, regval.mk 0x3636 0x06,
    regval.mk 0x3620 0x64, regval.mk 0x3621 0xE0, regval.mk 0x3600 0x37, regval.mk 0x3704 0xA0,
    regval.mk 0x3703 0x5A, regval.mk 0x3715 0x78, regval.mk 0x3717 0x01, regval.mk 0x3731 0x02,
    regval.mk 0x370B 0x60, regval.mk 0x3705 0x1A, regval.mk 0x3F05 0x02, regval.mk 0x3F06 0x10,
    regval.mk 0x3F01 0x0A, regval.mk 0x3A08 0x01, regval.mk 0x3A09 0x4B, regval.mk 0x3A0A 0x01,
    regval.mk 0x3A0B 0x13, regval.mk 0x3A0D 0x04, regval.mk 0x3A0E 0x03, regval.mk 0x3A0F 0x58,
    regval.mk 0x3A10 0x50, regval.mk 0x3A1B 0x58, regval.mk 0x3A1E 0x50, regval.mk 0x3A11 0x60,
    regval.mk 0x3A1F 0x28, regval.mk 0x4001 0x02, regval.mk 0x4004 0x04, regval.mk 0x4000 0x09,
    regval.mk 0x4837 0x19, regval.mk 0x4800 0x34, regval.mk 0x3503 0x00, regval.mk 0x3500 0x00,
    regval.mk 0x3501 0x40, regval.mk 0x3502 0x00, regval.mk 0x350A 0x00, regval.mk 0x350B 0x10
  ]

/-! ## Init / DeInit -/

/-- The C function `OV5647_Init`.  `PixelFormat` is ignored, as in the source. -/
def OV5647_Init (pObj : OV5647_Object_t) (Resolution _PixelFormat : Nat) (st : State) :
    Int × OV5647_Object_t × State :=
  if pObj.IsInitialized ≠ 0 then (OV5647_OK, pObj, st)
  else
    let rh := ov5647_read_reg pObj.Ctx OV5647_REG_CHIP_ID_HIGH 0 1 st.trace
    if rh.1 ≠ 0 then (OV5647_ERROR, pObj, { st with trace := rh.2.2 })
    else
      let rl := ov5647_read_reg pObj.Ctx OV5647_REG_CHIP_ID_LOW 0 1 rh.2.2
      if rl.1 ≠ 0 then (OV5647_ERROR, pObj, { st with trace := rl.2.2 })
      else if rh.2.1 ≠ 0x56 ∨ rl.2.1 ≠ 0x47 then
        (OV5647_ERROR, pObj, { st with trace := rl.2.2 })
      else if Resolution = OV5647_R1920_1080 then
        let w := OV5647_WriteTable pObj ov5647_1920x1080_regs rl.2.2
        if w.1 ≠ OV5647_OK then (OV5647_ERROR, pObj, { st with trace := w.2 })
        else (OV5647_OK, { pObj with IsInitialized := 1 }, { st with trace := w.2 })
      else (OV5647_ERROR, pObj, { st with trace := rl.2.2 })

/-- The C function `OV5647_DeInit`; the status of the standby write is dropped. -/
def OV5647_DeInit (pObj : OV5647_Object_t) (st : State) : Int × OV5647_Object_t × State :=
  if pObj.IsInitialized ≠ 0 then
    (OV5647_OK, { pObj with IsInitialized := 0 },
      { st with trace :=
          (ov5647_write_reg pObj.Ctx OV5647_REG_MODE_SELECT OV5647_MODE_STANDBY 1 st.trace).2 })
  else (OV5647_OK, pObj, st)

/-! ## Gain control -/

/-- The register code computed by `OV5647_SetGain`: clamp, 64-bit truncating
division, conversion of the quotient to `uint16_t`, addition in `int`, and the
store into the `uint16_t code`. -/
def OV5647_SetGain_code (gain_mdb : Int) : Nat :=
  let g1 := if gain_mdb < OV5647_GAIN_MIN_MDB then OV5647_GAIN_MIN_MDB else gain_mdb
  let g2 := if g1 > OV5647_GAIN_MAX_MDB then OV5647_GAIN_MAX_MDB else g1
  let q := Int.tdiv (g2 * (0xF8 - 0x10))
    (if OV5647_GAIN_MAX_MDB ≠ 0 then OV5647_GAIN_MAX_MDB else 1)
  ((0x10 + q % 65536) % 65536).toNat

/-- The C function `OV5647_SetGain`: high byte to `0x350A`, then low byte to
`0x350B`, stopping at the first write that fails. -/
def OV5647_SetGain (pObj : OV5647_Object_t) (gain_mdb : Int) (tr : Trace) : Int × Trace :=
  let code := OV5647_SetGain_code gain_mdb
  let h := (code >>> 8) &&& 0xFF
  let l := code &&& 0xFF
  let wh := ov5647_write_reg pObj.Ctx OV5647_REG_GAIN_H h 1 tr
  if wh.1 ≠ 0 then (OV5647_ERROR, wh.2)
  else
    let wl := ov5647_write_reg pObj.Ctx OV5647_REG_GAIN_L l 1 wh.2
    if wl.1 ≠ 0 then (OV5647_ERROR, wl.2) else (OV5647_OK, wl.2)

/-! ## Verify-mode table engine -/

/-- The array `ov5647_verify_skip`. -/
def ov5647_verify_skip : List Nat := [0x0103]

/-- The C function `ov5647_is_verify_skipped`: 1 when the loop finds `addr` in
`ov5647_verify_skip`, 0 otherwise. -/
def ov5647_is_verify_skipped (addr : Nat) : Int :=
  if ov5647_verify_skip.any (fun a => a == addr) then 1 else 0

/-- The C function `ov5647_write_verify`: one write, then (unless the address is
`0x0103` or on the skip list) one read of the same address into `rd = 0x00`,
whose value is only logged.  The `printf` and `HAL_Delay` calls do not touch
the bus and are left out. -/
def ov5647_write_verify (pObj : OV5647_Object_t) (addr val : Nat) (tr : Trace) :
    Int × Trace :=
  let w := ov5647_write_reg pObj.Ctx addr val 1 tr
  if w.1 ≠ 0 then (OV5647_ERROR, w.2)
  else if addr = 0x0103 then (OV5647_OK, w.2)
  else if ov5647_is_verify_skipped addr ≠ 0 then (OV5647_OK, w.2)
  else
    let r := ov5647_read_reg pObj.Ctx addr 0x00 1 w.2
    if r.1 ≠ 0 then (OV5647_ERROR, r.2.2) else (OV5647_OK, r.2.2)

/-- The C function `OV5647_WriteTable_Verify`: the loop over the table, returning
the first status of `ov5647_write_verify` that is not OK.  The `HAL_Delay(3)`
after register `0x3036` does not touch the bus and is left out. -/
def OV5647_WriteTable_Verify (pObj : OV5647_Object_t) :
    List regval → Trace → Int × Trace
  | [], tr => (OV5647_OK, tr)
  | r :: rest, tr =>
    if (ov5647_write_verify pObj r.addr r.val tr).1 ≠ OV5647_OK then
      ((ov5647_write_verify pObj r.addr r.val tr).1,
        (ov5647_write_verify pObj r.addr r.val tr).2)
    else
      OV5647_WriteTable_Verify pObj rest (ov5647_write_verify pObj r.addr r.val tr).2

/-! ## Exposure control -/

/-- The first half of `OV5647_SetExposure`, on the cache as it is after the
refresh: the clamp of the input to `OV5647_EXPOSURE_MIN_US`, the 64-bit `num`
and `denom`, and the rounded quotient stored into the `uint32_t lines`.
`none` is the undefined division by `denom = 0`. -/
def OV5647_SetExposure_rounded (st : State) (exposure_us : Int) : Option Nat :=
  let e := if exposure_us < OV5647_EXPOSURE_MIN_US then OV5647_EXPOSURE_MIN_US else exposure_us
  let num := ((e % 2 ^ 64).toNat * st.s_pclk) % 2 ^ 64
  let denom := (st.s_hts * 1000000) % 2 ^ 64
  if denom = 0 then none
  else some (((num + denom / 2) % 2 ^ 64 / denom) % 2 ^ 32)

/-- The two adjustments `OV5647_SetExposure` applies to `lines`: a zero count
becomes 1, and, when `s_vts` is non-zero, a count above
`(uint32_t)(s_vts - margin)` is replaced by it (`margin = 8`, the difference
taken in `uint32_t`). -/
def OV5647_SetExposure_clamp (st : State) (lines : Nat) : Nat :=
  let lines1 := if lines = 0 then 1 else lines
  let cap := (st.s_vts + 2 ^ 32 - 8) % 2 ^ 32
  if st.s_vts ≠ 0 ∧ lines1 > cap then cap else lines1

/-- The line count `OV5647_SetExposure` goes on to encode. -/
def OV5647_SetExposure_lines (st : State) (exposure_us : Int) : Option Nat :=
  (OV5647_SetExposure_rounded st exposure_us).map (OV5647_SetExposure_clamp st)

/-- The bytes `h`, `m`, `l` that `OV5647_SetExposure` derives from the
`uint32_t lines`, each stored into a `uint8_t`. -/
def OV5647_SetExposure_bytes (lines : Nat) : Nat × Nat × Nat :=
  (((lines >>> 12) &&& 0x0F) % 256,
   ((lines >>> 4) &&& 0xFF) % 256,
   (((lines <<< 4) % 2 ^ 32) &&& 0xF0) % 256)

/-- The three writes that end `OV5647_SetExposure`: `0x3500`, `0x3501`, `0x3502`,
stopping at the first one that fails. -/
def OV5647_SetExposure_write (pObj : OV5647_Object_t) (lines : Nat) (tr : Trace) :
    Int × Trace :=
  let wh := ov5647_write_reg pObj.Ctx OV5647_REG_EXPOSURE_H
    (OV5647_SetExposure_bytes lines).1 1 tr
  if wh.1 ≠ 0 then (OV5647_ERROR, wh.2)
  else
    let wm := ov5647_write_reg pObj.Ctx OV5647_REG_EXPOSURE_M
      (OV5647_SetExposure_bytes lines).2.1 1 wh.2
    if wm.1 ≠ 0 then (OV5647_ERROR, wm.2)
    else
      let wl := ov5647_write_reg pObj.Ctx OV5647_REG_EXPOSURE_L
        (OV5647_SetExposure_bytes lines).2.2 1 wm.2
      if wl.1 ≠ 0 then (OV5647_ERROR, wl.2) else (OV5647_OK, wl.2)

/-- The C function `OV5647_SetExposure`: refresh of the timing cache when one of
its three values is zero, line count, encoding, three writes.  `none` is the
undefined division by zero. -/
def OV5647_SetExposure (pObj : OV5647_Object_t) (exposure_us : Int) (st : State) :
    Option (Int × State) :=
  let st1 := if st.s_hts = 0 ∨ st.s_vts = 0 ∨ st.s_pclk = 0
    then ov5647_update_timing_cache pObj 30 st else st
  match OV5647_SetExposure_lines st1 exposure_us with
  | none => none
  | some lines =>
    some ((OV5647_SetExposure_write pObj lines st1.trace).1,
      { st1 with trace := (OV5647_SetExposure_write pObj lines st1.trace).2 })

/-! ## Framerate, orientation, test pattern -/

/-- The C function `OV5647_SetFramerate`, whose body is empty: nothing is
executed and no value is returned (`none`). -/
def OV5647_SetFramerate (_pObj : OV5647_Object_t) (_fps_target : Int) (st : State) :
    Option Int × State :=
  (none, st)

/-- The C function `OV5647_MirrorFlipConfig`, whose body is empty: nothing is
executed and no value is returned (`none`). -/
def OV5647_MirrorFlipConfig (_pObj : OV5647_Object_t) (_Config : Nat) (st : State) :
    Option Int × State :=
  (none, st)

/-- The table `test_pattern_enable_bar`. -/
def test_pattern_enable_bar : List regval :=
  [regval.mk OV5647_REG_TEST_PATTERN (0x80 ||| (0x0 <<< 2))]

/-- The table `test_pattern_disable`. -/
def test_pattern_disable : List regval :=
  [regval.mk OV5647_REG_TEST_PATTERN 0x00]

/-- The C function `OV5647_SetTestPattern`. -/
def OV5647_SetTestPattern (pObj : OV5647_Object_t) (mode : Int) (tr : Trace) : Int × Trace :=
  if mode ≥ 0 then OV5647_WriteTable pObj test_pattern_enable_bar tr
  else OV5647_WriteTable pObj test_pattern_disable tr

/-! ## Capabilities and dispatch table -/

/-- The structure `OV5647_Capabilities_t` of `ov5647.h`, field for field. -/
structure OV5647_Capabilities_t where
  Config_Resolution : Nat
  Config_LightMode : Nat
  Config_SpecialEffect : Nat
  Config_Brightness : Nat
  Config_Saturation : Nat
  Config_Contrast : Nat
  Config_HueDegree : Nat
  Config_Gain : Nat
  Config_Exposure : Nat
  Config_MirrorFlip : Nat
  Config_Zoom : Nat
  Config_NightMode : Nat
  Config_ExposureMode : Nat
  Config_SensorInfo : Nat
  Config_TestPattern : Nat
  Config_ColorEffect : Nat
deriving DecidableEq, Repr

/-- The C function `OV5647_GetCapabilities`.  The output pointer is `none` when
null and otherwise holds the structure it points to; the result carries the
structure after the call. -/
def OV5647_GetCapabilities (_pObj : OV5647_Object_t)
    (Capabilities : Option OV5647_Capabilities_t) : Int × Option OV5647_Capabilities_t :=
  match Capabilities with
  | none => (OV5647_ERROR, none)
  | some c =>
    (OV5647_OK, some { c with
      Config_Brightness := 0
      Config_Contrast := 0
      Config_HueDegree := 0
      Config_Gain := 1
      Config_Exposure := 1
      Config_ExposureMode := 0
      Config_LightMode := 0
      Config_MirrorFlip := 1
      Config_NightMode := 0
      Config_Resolution := 0
      Config_Saturation := 0
      Config_SpecialEffect := 0
      Config_Zoom := 0
      Config_SensorInfo := 1
      Config_TestPattern := 1
      Config_ColorEffect := 0 })

/-- The functions of `ov5647.c` whose addresses appear in the dispatch table. -/
inductive DrvFunc where
  | OV5647_Init
  | OV5647_DeInit
  | OV5647_ReadID
  | OV5647_GetCapabilities
  | OV5647_MirrorFlipConfig
  | OV5647_SetGain
  | OV5647_SetExposure
  | OV5647_GetSensorInfo
  | OV5647_SetTestPattern
deriving DecidableEq, Repr

/-- The structure `OV5647_CAMERA_Drv_t` of `ov5647.h`, slot for slot; a slot holds
`none` for a null pointer and otherwise the function it points to. -/
structure OV5647_CAMERA_Drv_t where
  Init : Option DrvFunc
  DeInit : Option DrvFunc
  ReadID : Option DrvFunc
  GetCapabilities : Option DrvFunc
  SetLightMode : Option DrvFunc
  SetColorEffect : Option DrvFunc
  SetBrightness : Option DrvFunc
  SetSaturation : Option DrvFunc
  SetContrast : Option DrvFunc
  SetHueDegree : Option DrvFunc
  MirrorFlipConfig : Option DrvFunc
  ZoomConfig : Option DrvFunc
  SetResolution : Option DrvFunc
  GetResolution : Option DrvFunc
  SetPixelFormat : Option DrvFunc
  GetPixelFormat : Option DrvFunc
  NightModeConfig : Option DrvFunc
  SetFrequency : Option DrvFunc
  SetGain : Option DrvFunc
  SetExposure : Option DrvFunc
  SetExposureMode : Option DrvFunc
  GetSensorInfo : Option DrvFunc
  SetTestPattern : Option DrvFunc
deriving DecidableEq, Repr

/-- The dispatch table `OV5647_CAMERA_Driver`, initialiser for initialiser. -/
def OV5647_CAMERA_Driver : OV5647_CAMERA_Drv_t :=
  { Init := some DrvFunc.OV5647_Init
    DeInit := some DrvFunc.OV5647_DeInit
    ReadID := some DrvFunc.OV5647_ReadID
    GetCapabilities := some DrvFunc.OV5647_GetCapabilities
    SetLightMode := none
    SetColorEffect := none
    SetBrightness := none
    SetSaturation := none
    SetContrast := none
    SetHueDegree := none
    MirrorFlipConfig := some DrvFunc.OV5647_MirrorFlipConfig
    ZoomConfig := none
    SetResolution := none
    GetResolution := none
    SetPixelFormat := none
    GetPixelFormat := none
    NightModeConfig := none
    SetFrequency := none
    SetGain := some DrvFunc.OV5647_SetGain
    SetExposure := some DrvFunc.OV5647_SetExposure
    SetExposureMode := none
    GetSensorInfo := some DrvFunc.OV5647_GetSensorInfo
    SetTestPattern := some DrvFunc.OV5647_SetTestPattern }

/-! ## Vocabulary of the statements -/

/-- The bus operation by which a table entry is written: one byte, length 1. -/
def entryWrite (r : regval) : BusOp :=
  BusOp.write r.addr r.val 1

/-- The writes of a trace as (address, byte) pairs, reads dropped. -/
def writesOf : Trace → List (Nat × Nat)
  | [] => []
  | BusOp.write reg data _ :: rest => (reg, data) :: writesOf rest
  | BusOp.read _ _ :: rest => writesOf rest

/-- The byte most recently written to `reg` in a trace, if any. -/
def lastWritten (reg : Nat) (tr : Trace) : Option Nat :=
  ((writesOf tr).filter (fun w => w.1 = reg)).getLast?.map Prod.snd

/-- A bus whose write callback reports success on every call. -/
def WritesSucceed (ctx : ov5647_ctx_t) : Prop :=
  ∀ hist reg data length, ctx.WriteReg hist reg data length = 0

/-- The gain code as the specification words it: `0x10 + clamp(g, 0, 4800) *
(0xF8 - 0x10) / 4800`, the division truncating. -/
def gainCodeSpec (g : Int) : Int :=
  0x10 + Int.tdiv (max 0 (min g 4800) * (0xF8 - 0x10)) 4800

/-- A sensor that answers the identity reads with `0x56`, `0x47` and accepts
every write. -/
def goodCtx : ov5647_ctx_t :=
  { WriteReg := fun _ _ _ _ => 0
    ReadReg := fun _ reg buf _ =>
      if reg = 0x300A then (0, 0x56) else if reg = 0x300B then (0, 0x47) else (0, buf) }

/-- A sensor like `goodCtx` whose write callback fails from the third write on. -/
def flakyCtx : ov5647_ctx_t :=
  { WriteReg := fun hist _ _ _ => if (writesOf hist).length < 2 then 0 else -1
    ReadReg := goodCtx.ReadReg }

/-- A bus whose identity reads succeed but hand back `0x00`, `0x00`. -/
def wrongIdCtx : ov5647_ctx_t :=
  { WriteReg := fun _ _ _ _ => 0
    ReadReg := fun _ _ _ _ => (0, 0) }

/-- Whether a bus operation is a write. -/
def BusOp.isWrite : BusOp → Bool
  | BusOp.write _ _ _ => true
  | BusOp.read _ _ => false

/-- A bus whose read callback reports success on every call. -/
def ReadsSucceed (ctx : ov5647_ctx_t) : Prop :=
  ∀ hist reg buf length, (ctx.ReadReg hist reg buf length).1 = 0

/-- The types of the timing statics: `s_hts`, `s_vts` are `uint16_t`, `s_pclk`
is `uint32_t`, `s_fps` is `int32_t`. -/
def State.WellTyped (st : State) : Prop :=
  st.s_hts < 2 ^ 16 ∧ st.s_vts < 2 ^ 16 ∧ st.s_pclk < 2 ^ 32 ∧
    -2 ^ 31 ≤ st.s_fps ∧ st.s_fps < 2 ^ 31

/-- Round-half-up of the fraction `num / den` (`den > 0`), that is
`floor (num / den + 1/2)`. -/
def roundHalfUp (num den : Int) : Int :=
  (2 * num + den) / (2 * den)

/-- The exposure line count as the specification words it: round-half-up of
`max(exposure_us, 50) * pixel_clock_hz / (line_length_pck * 1000000)`, raised
to at least 1, then capped at `frame_length_lines - 8`. -/
def exposureLinesSpec (st : State) (exposure_us : Int) : Int :=
  min (max (roundHalfUp (max exposure_us 50 * st.s_pclk) (st.s_hts * 1000000)) 1)
    (st.s_vts - 8)

/-- The timing cache of the 1920x1080 mode at 30 fps: HTS 2416, VTS 1104,
pixel clock 80017920 Hz. -/
def cache1080p : State :=
  { trace := [], s_hts := 2416, s_vts := 1104, s_pclk := 80017920, s_fps := 30 }

/-- The operations verify mode issues for a table when nothing fails: each
entry's write, followed by a read of the same address unless the address is
`0x0103` or on the skip list. -/
def verifyOps : List regval → Trace
  | [] => []
  | r :: rest =>
    if r.addr = 0x0103 ∨ r.addr ∈ ov5647_verify_skip then entryWrite r :: verifyOps rest
    else entryWrite r :: BusOp.read r.addr 1 :: verifyOps rest

/-- The logical controls that the capability descriptor and the dispatch table
are compared on. -/
inductive Control where
  | gain
  | exposure
  | mirrorFlip
  | sensorInfo
  | testPattern
  | brightness
  | contrast
  | hue
  | saturation
  | lightMode
  | colorEffect
  | zoom
  | nightMode
  | resolution
  | exposureMode
deriving DecidableEq, Repr

/-- Every control, in the order the comparison lists them. -/
def Control.all : List Control :=
  [Control.gain, Control.exposure, Control.mirrorFlip, Control.sensorInfo,
    Control.testPattern, Control.brightness, Control.contrast, Control.hue,
    Control.saturation, Control.lightMode, Control.colorEffect, Control.zoom,
    Control.nightMode, Control.resolution, Control.exposureMode]

/-- The capability field that reports a control. -/
def Control.reported (caps : OV5647_Capabilities_t) : Control → Nat
  | Control.gain => caps.Config_Gain
  | Control.exposure => caps.Config_Exposure
  | Control.mirrorFlip => caps.Config_MirrorFlip
  | Control.sensorInfo => caps.Config_SensorInfo
  | Control.testPattern => caps.Config_TestPattern
  | Control.brightness => caps.Config_Brightness
  | Control.contrast => caps.Config_Contrast
  | Control.hue => caps.Config_HueDegree
  | Control.saturation => caps.Config_Saturation
  | Control.lightMode => caps.Config_LightMode
  | Control.colorEffect => caps.Config_ColorEffect
  | Control.zoom => caps.Config_Zoom
  | Control.nightMode => caps.Config_NightMode
  | Control.resolution => caps.Config_Resolution
  | Control.exposureMode => caps.Config_ExposureMode

/-- The dispatch slot or slots that serve a control. -/
def Control.slots (drv : OV5647_CAMERA_Drv_t) : Control → List (Option DrvFunc)
  | Control.gain => [drv.SetGain]
  | Control.exposure => [drv.SetExposure]
  | Control.mirrorFlip => [drv.MirrorFlipConfig]
  | Control.sensorInfo => [drv.GetSensorInfo]
  | Control.testPattern => [drv.SetTestPattern]
  | Control.brightness => [drv.SetBrightness]
  | Control.contrast => [drv.SetContrast]
  | Control.hue => [drv.SetHueDegree]
  | Control.saturation => [drv.SetSaturation]
  | Control.lightMode => [drv.SetLightMode]
  | Control.colorEffect => [drv.SetColorEffect]
  | Control.zoom => [drv.ZoomConfig]
  | Control.nightMode => [drv.NightModeConfig]
  | Control.resolution => [drv.SetResolution, drv.GetResolution]
  | Control.exposureMode => [drv.SetExposureMode]

/-! ## Traces -/

lemma writesOf_append (a b : Trace) : writesOf (a ++ b) = writesOf a ++ writesOf b := by
  induction a with
  | nil => rfl
  | cons op rest ih => cases op <;> simp [writesOf, ih]

lemma writesOf_map_entryWrite (regs : List regval) :
    writesOf (regs.map entryWrite) = regs.map (fun r => (r.addr, r.val)) := by
  induction regs with
  | nil => rfl
  | cons r rest ih => simp [entryWrite, writesOf] at ih ⊢; exact ih

/-! ## Table engine -/

lemma WriteTable_all_ok (pObj : OV5647_Object_t) (h : WritesSucceed pObj.Ctx) :
    ∀ (regs : List regval) (tr : Trace),
      OV5647_WriteTable pObj regs tr = (OV5647_OK, tr ++ regs.map entryWrite) := by
  intro regs
  induction regs with
  | nil => intro tr; simp [OV5647_WriteTable]
  | cons r rest ih =>
    intro tr
    simp [OV5647_WriteTable, ov5647_write_reg, h _ _ _ _, ih, entryWrite]

lemma WriteTable_first_failure (pObj : OV5647_Object_t) :
    ∀ (regs : List regval) (tr : Trace) (k : Nat) (hk : k < regs.length),
      (∀ (i : Nat) (hi : i < regs.length), i < k →
        pObj.Ctx.WriteReg (tr ++ (regs.take i).map entryWrite)
          (regs.get ⟨i, hi⟩).addr (regs.get ⟨i, hi⟩).val 1 = 0) →
      pObj.Ctx.WriteReg (tr ++ (regs.take k).map entryWrite)
          (regs.get ⟨k, hk⟩).addr (regs.get ⟨k, hk⟩).val 1 ≠ 0 →
      OV5647_WriteTable pObj regs tr
        = (OV5647_ERROR, tr ++ (regs.take (k + 1)).map entryWrite) := by
  intro regs
  induction regs with
  | nil => intro tr k hk; simp at hk
  | cons r rest ih =>
    intro tr k hk hpre hfail
    cases k with
    | zero =>
      simp at hfail
      simp [OV5647_WriteTable, ov5647_write_reg, hfail, entryWrite]
    | succ k =>
      have h0 : pObj.Ctx.WriteReg tr r.addr r.val 1 = 0 := by
        have := hpre 0 (by simp) (Nat.succ_pos k)
        simpa using this
      have hk1 : k < rest.length := by simpa using hk
      have key := ih (tr ++ [entryWrite r]) k hk1
        (by
          intro i hi hik
          have := hpre (i + 1) (by simpa using hi) (Nat.succ_lt_succ hik)
          simpa [List.append_assoc] using this)
        (by simpa [List.append_assoc] using hfail)
      simp [OV5647_WriteTable, ov5647_write_reg, h0]
      simpa [entryWrite, List.append_assoc] using key

/-- C1: on a bus whose writes all succeed, `OV5647_WriteTable` returns OK and the
operations it appends to the trace are exactly the table: one one-byte write per
entry, in table order, with that entry's address and value, and no read. -/
theorem WriteTable_issues_table (pObj : OV5647_Object_t) (regs : List regval) (tr : Trace)
    (h : WritesSucceed pObj.Ctx) :
    OV5647_WriteTable pObj regs tr = (OV5647_OK, tr ++ regs.map entryWrite) :=
  WriteTable_all_ok pObj h regs tr

theorem WriteTable_issues_table_witness :
    WritesSucceed goodCtx ∧
      OV5647_WriteTable ⟨goodCtx, 0⟩ ov5647_1920x1080_regs []
        = (OV5647_OK, [] ++ ov5647_1920x1080_regs.map entryWrite) :=
  ⟨fun _ _ _ _ => rfl,
    WriteTable_issues_table ⟨goodCtx, 0⟩ ov5647_1920x1080_regs [] (fun _ _ _ _ => rfl)⟩

/-- C2: when the writes for entries `0..k-1` succeed and the write for entry `k`
fails, `OV5647_WriteTable` returns ERROR and the operations it appended are
exactly the writes for entries `0..k`, in order, the failing one last: nothing
after entry `k` is issued and nothing is undone. -/
theorem WriteTable_aborts_at_first_failure (pObj : OV5647_Object_t) (regs : List regval)
    (tr : Trace) (k : Nat) (hk : k < regs.length)
    (hpre : ∀ (i : Nat) (hi : i < regs.length), i < k →
      pObj.Ctx.WriteReg (tr ++ (regs.take i).map entryWrite)
        (regs.get ⟨i, hi⟩).addr (regs.get ⟨i, hi⟩).val 1 = 0)
    (hfail : pObj.Ctx.WriteReg (tr ++ (regs.take k).map entryWrite)
        (regs.get ⟨k, hk⟩).addr (regs.get ⟨k, hk⟩).val 1 ≠ 0) :
    OV5647_WriteTable pObj regs tr
      = (OV5647_ERROR, tr ++ (regs.take (k + 1)).map entryWrite) :=
  WriteTable_first_failure pObj regs tr k hk hpre hfail

theorem WriteTable_aborts_at_first_failure_witness :
    OV5647_WriteTable ⟨flakyCtx, 0⟩ ov5647_1920x1080_regs []
      = (OV5647_ERROR,
          [BusOp.write 0x0100 0x00 1, BusOp.write 0x0103 0x01 1, BusOp.write 0x3034 0x1A 1]) :=
  WriteTable_aborts_at_first_failure ⟨flakyCtx, 0⟩ ov5647_1920x1080_regs [] 2 (by decide)
    (by
      intro i hi hik
      interval_cases i <;> rfl)
    (by decide)

/-! ## Init / DeInit -/

lemma Init_when_ready (pObj : OV5647_Object_t) (Resolution PixelFormat : Nat) (st : State)
    (h : pObj.IsInitialized ≠ 0) :
    OV5647_Init pObj Resolution PixelFormat st = (OV5647_OK, pObj, st) := by
  simp [OV5647_Init, h]

lemma Init_success (pObj : OV5647_Object_t) (PixelFormat : Nat) (st : State)
    (hu : pObj.IsInitialized = 0)
    (hh : pObj.Ctx.ReadReg st.trace OV5647_REG_CHIP_ID_HIGH 0 1 = (0, 0x56))
    (hl : pObj.Ctx.ReadReg (st.trace ++ [BusOp.read OV5647_REG_CHIP_ID_HIGH 1])
      OV5647_REG_CHIP_ID_LOW 0 1 = (0, 0x47))
    (hw : WritesSucceed pObj.Ctx) :
    OV5647_Init pObj OV5647_R1920_1080 PixelFormat st
      = (OV5647_OK, { pObj with IsInitialized := 1 },
          { st with trace := st.trace
              ++ [BusOp.read OV5647_REG_CHIP_ID_HIGH 1, BusOp.read OV5647_REG_CHIP_ID_LOW 1]
              ++ ov5647_1920x1080_regs.map entryWrite }) := by
  simp [OV5647_Init, hu, ov5647_read_reg, hh, hl, WriteTable_all_ok pObj hw, OV5647_OK]

lemma Init_keeps_timing_cache (pObj : OV5647_Object_t) (Resolution PixelFormat : Nat)
    (st : State) :
    (OV5647_Init pObj Resolution PixelFormat st).2.2.s_hts = st.s_hts ∧
    (OV5647_Init pObj Resolution PixelFormat st).2.2.s_vts = st.s_vts ∧
    (OV5647_Init pObj Resolution PixelFormat st).2.2.s_pclk = st.s_pclk ∧
    (OV5647_Init pObj Resolution PixelFormat st).2.2.s_fps = st.s_fps := by
  unfold OV5647_Init
  simp only []
  split_ifs <;> simp

/-- C3: for an Uninitialized device and any resolution, when the identity bytes
read from `0x300A`, `0x300B` are not `0x56`, `0x47`, `OV5647_Init` returns
ERROR, the only operations it issued are the identity reads (one or both), so
no register write, and the object is unchanged, hence still Uninitialized. -/
theorem Init_identity_mismatch (pObj : OV5647_Object_t) (Resolution PixelFormat : Nat)
    (st : State) (hu : pObj.IsInitialized = 0)
    (hid : (ov5647_read_reg pObj.Ctx OV5647_REG_CHIP_ID_HIGH 0 1 st.trace).2.1 ≠ 0x56 ∨
      (ov5647_read_reg pObj.Ctx OV5647_REG_CHIP_ID_LOW 0 1
        (ov5647_read_reg pObj.Ctx OV5647_REG_CHIP_ID_HIGH 0 1 st.trace).2.2).2.1 ≠ 0x47) :
    (OV5647_Init pObj Resolution PixelFormat st).1 = OV5647_ERROR ∧
    ((OV5647_Init pObj Resolution PixelFormat st).2.2.trace
        = st.trace ++ [BusOp.read 0x300A 1] ∨
      (OV5647_Init pObj Resolution PixelFormat st).2.2.trace
        = st.trace ++ [BusOp.read 0x300A 1, BusOp.read 0x300B 1]) ∧
    writesOf (OV5647_Init pObj Resolution PixelFormat st).2.2.trace = writesOf st.trace ∧
    (OV5647_Init pObj Resolution PixelFormat st).2.1 = pObj ∧
    (OV5647_Init pObj Resolution PixelFormat st).2.1.IsInitialized = 0 := by
  unfold OV5647_Init
  simp only [ov5647_read_reg, OV5647_REG_CHIP_ID_HIGH, OV5647_REG_CHIP_ID_LOW] at hid ⊢
  split_ifs with h1 h2 h3
  · exact absurd hu h1
  · simp [writesOf_append, writesOf, hu]
  · simp [writesOf_append, writesOf, hu]
  · simp [writesOf_append, writesOf, hu]

theorem Init_identity_mismatch_witness :
    (OV5647_Init ⟨wrongIdCtx, 0⟩ OV5647_R1920_1080 0 State.boot).1 = OV5647_ERROR ∧
    writesOf (OV5647_Init ⟨wrongIdCtx, 0⟩ OV5647_R1920_1080 0 State.boot).2.2.trace = [] ∧
    (OV5647_Init ⟨wrongIdCtx, 0⟩ OV5647_R1920_1080 0 State.boot).2.1.IsInitialized = 0 :=
  have h := Init_identity_mismatch ⟨wrongIdCtx, 0⟩ OV5647_R1920_1080 0 State.boot rfl
    (Or.inl (by decide))
  ⟨h.1, h.2.2.1, h.2.2.2.2⟩

/-- C4: on a device that is already Ready, `OV5647_Init` returns OK for every
resolution and pixel format, issues no bus operation at all and changes neither
the object nor the state; so a second call right after the first one, with any
arguments, gives back the result, object and state of the first. -/
theorem Init_idempotent_when_ready (pObj : OV5647_Object_t)
    (Resolution PixelFormat Resolution2 PixelFormat2 : Nat) (st : State)
    (hr : pObj.IsInitialized ≠ 0) :
    OV5647_Init pObj Resolution PixelFormat st = (OV5647_OK, pObj, st) ∧
    OV5647_Init (OV5647_Init pObj Resolution PixelFormat st).2.1 Resolution2 PixelFormat2
        (OV5647_Init pObj Resolution PixelFormat st).2.2
      = OV5647_Init pObj Resolution PixelFormat st := by
  have h1 := Init_when_ready pObj Resolution PixelFormat st hr
  refine ⟨h1, ?_⟩
  rw [h1]
  exact Init_when_ready pObj Resolution2 PixelFormat2 st hr

theorem Init_idempotent_when_ready_witness :
    (OV5647_Init ⟨wrongIdCtx, 1⟩ 6 10 State.boot).1 = OV5647_OK ∧
    (OV5647_Init ⟨wrongIdCtx, 1⟩ 6 10 State.boot).2.2.trace = [] ∧
    (OV5647_Init ⟨wrongIdCtx, 1⟩ 6 10 State.boot).2.1.IsInitialized = 1 :=
  have h := (Init_idempotent_when_ready ⟨wrongIdCtx, 1⟩ 6 10 7 0 State.boot (by decide)).1
  ⟨by rw [h], by rw [h]; rfl, by rw [h]⟩

/-- C5: from Uninitialized, with the identity reads returning `0x56`, `0x47`,
resolution `OV5647_R1920_1080` and a bus whose writes all succeed,
`OV5647_Init` returns OK, sets `IsInitialized` to 1, and appends to the trace
the two identity reads followed by exactly the 1920x1080 table, entry by entry
(so its writes are the table, starting `0x0100=0x00`, `0x0103=0x01`, with no
write after the last table entry). -/
theorem Init_writes_mode_table (pObj : OV5647_Object_t) (PixelFormat : Nat) (st : State)
    (hu : pObj.IsInitialized = 0)
    (hh : pObj.Ctx.ReadReg st.trace OV5647_REG_CHIP_ID_HIGH 0 1 = (0, 0x56))
    (hl : pObj.Ctx.ReadReg (st.trace ++ [BusOp.read OV5647_REG_CHIP_ID_HIGH 1])
      OV5647_REG_CHIP_ID_LOW 0 1 = (0, 0x47))
    (hw : WritesSucceed pObj.Ctx) :
    OV5647_Init pObj OV5647_R1920_1080 PixelFormat st
      = (OV5647_OK, { pObj with IsInitialized := 1 },
          { st with trace := st.trace
              ++ [BusOp.read OV5647_REG_CHIP_ID_HIGH 1, BusOp.read OV5647_REG_CHIP_ID_LOW 1]
              ++ ov5647_1920x1080_regs.map entryWrite }) ∧
    writesOf (OV5647_Init pObj OV5647_R1920_1080 PixelFormat st).2.2.trace
      = writesOf st.trace ++ ov5647_1920x1080_regs.map (fun r => (r.addr, r.val)) ∧
    ov5647_1920x1080_regs.take 2 = [regval.mk 0x0100 0x00, regval.mk 0x0103 0x01] := by
  have h := Init_success pObj PixelFormat st hu hh hl hw
  refine ⟨h, ?_, rfl⟩
  have hreads : writesOf
      [BusOp.read OV5647_REG_CHIP_ID_HIGH 1, BusOp.read OV5647_REG_CHIP_ID_LOW 1] = [] := rfl
  rw [h]
  show writesOf (_ ++ _ ++ _) = _
  rw [writesOf_append, writesOf_append, writesOf_map_entryWrite, hreads, List.append_nil]

theorem Init_writes_mode_table_witness :
    (OV5647_Init ⟨goodCtx, 0⟩ OV5647_R1920_1080 10 State.boot).1 = OV5647_OK ∧
    (OV5647_Init ⟨goodCtx, 0⟩ OV5647_R1920_1080 10 State.boot).2.1.IsInitialized = 1 ∧
    writesOf (OV5647_Init ⟨goodCtx, 0⟩ OV5647_R1920_1080 10 State.boot).2.2.trace
      = writesOf State.boot.trace ++ ov5647_1920x1080_regs.map (fun r => (r.addr, r.val)) :=
  have h := Init_writes_mode_table ⟨goodCtx, 0⟩ 10 State.boot rfl rfl rfl (fun _ _ _ _ => rfl)
  ⟨by rw [h.1], by rw [h.1], h.2.1⟩

/-- C6: on a sensor that answers the identity reads correctly and accepts every
write, `OV5647_Init` from the boot state with `OV5647_R1920_1080` returns OK and
becomes Ready, yet the timing cache is exactly what the static initialisers
left: `s_hts = 0`, `s_vts = 0`, `s_pclk = 0` (not 2416, 1104, 80017920), with
`s_fps = 30`. -/
theorem Init_leaves_timing_cache_zero :
    (OV5647_Init ⟨goodCtx, 0⟩ OV5647_R1920_1080 0 State.boot).1 = OV5647_OK ∧
    (OV5647_Init ⟨goodCtx, 0⟩ OV5647_R1920_1080 0 State.boot).2.1.IsInitialized = 1 ∧
    (OV5647_Init ⟨goodCtx, 0⟩ OV5647_R1920_1080 0 State.boot).2.2.s_hts = 0 ∧
    (OV5647_Init ⟨goodCtx, 0⟩ OV5647_R1920_1080 0 State.boot).2.2.s_vts = 0 ∧
    (OV5647_Init ⟨goodCtx, 0⟩ OV5647_R1920_1080 0 State.boot).2.2.s_pclk = 0 ∧
    (OV5647_Init ⟨goodCtx, 0⟩ OV5647_R1920_1080 0 State.boot).2.2.s_fps = 30 := by
  have h := Init_success ⟨goodCtx, 0⟩ 0 State.boot rfl rfl rfl (fun _ _ _ _ => rfl)
  have hc := Init_keeps_timing_cache ⟨goodCtx, 0⟩ OV5647_R1920_1080 0 State.boot
  refine ⟨by rw [h], by rw [h], ?_, ?_, ?_, ?_⟩
  · rw [hc.1]; rfl
  · rw [hc.2.1]; rfl
  · rw [hc.2.2.1]; rfl
  · rw [hc.2.2.2]; rfl

/-- C7: the 1920x1080 table holds exactly one entry for the mode-select register
`0x0100`, its first one, with the standby value `0x00`; its last entry is
`0x350B = 0x10`; and after a successful `OV5647_Init` the byte last written to
`0x0100` is `0x00`, not the streaming value `0x01`. -/
theorem mode_table_never_enables_streaming :
    ov5647_1920x1080_regs.filter (fun r => r.addr = OV5647_REG_MODE_SELECT)
      = [regval.mk 0x0100 0x00] ∧
    ov5647_1920x1080_regs.head? = some (regval.mk 0x0100 0x00) ∧
    ov5647_1920x1080_regs.getLast? = some (regval.mk 0x350B 0x10) ∧
    (OV5647_Init ⟨goodCtx, 0⟩ OV5647_R1920_1080 0 State.boot).1 = OV5647_OK ∧
    lastWritten OV5647_REG_MODE_SELECT
      (OV5647_Init ⟨goodCtx, 0⟩ OV5647_R1920_1080 0 State.boot).2.2.trace = some 0x00 := by
  have h := Init_success ⟨goodCtx, 0⟩ 0 State.boot rfl rfl rfl (fun _ _ _ _ => rfl)
  refine ⟨by decide, rfl, by decide, by rw [h], ?_⟩
  rw [h]
  decide

/-- C8: for every device and bus, `OV5647_DeInit` returns OK and leaves
`IsInitialized = 0`; from Ready it appends exactly one operation to the trace,
the write of the standby byte `0x00` to `0x0100`, whatever status that write
reports; from Uninitialized it appends nothing. -/
theorem DeInit_standby_once (pObj : OV5647_Object_t) (st : State) :
    (OV5647_DeInit pObj st).1 = OV5647_OK ∧
    (OV5647_DeInit pObj st).2.1.IsInitialized = 0 ∧
    (OV5647_DeInit pObj st).2.2.trace
      = (if pObj.IsInitialized ≠ 0 then st.trace ++ [BusOp.write 0x0100 0x00 1]
          else st.trace) := by
  unfold OV5647_DeInit
  split_ifs with h
  · simp [ov5647_write_reg, OV5647_REG_MODE_SELECT, OV5647_MODE_STANDBY]
  · simp at h
    simp [h]

/-! ## Gain control -/

lemma byte_split (n : Nat) : (n >>> 8) &&& 0xFF = n / 256 % 256 ∧ n &&& 0xFF = n % 256 := by
  constructor
  · rw [Nat.shiftRight_eq_div_pow]
    exact Nat.and_pow_two_sub_one_eq_mod _ 8
  · exact Nat.and_pow_two_sub_one_eq_mod _ 8

lemma SetGain_code_eq (g : Int) :
    (OV5647_SetGain_code g : Int) = 0x10 + max 0 (min g 4800) * 232 / 4800 := by
  have key : ∀ c : Int, 0 ≤ c → Int.tdiv (c * 232) 4800 = c * 232 / 4800 :=
    fun c hc => Int.tdiv_eq_ediv (by omega) (by norm_num)
  unfold OV5647_SetGain_code
  simp only [OV5647_GAIN_MIN_MDB, OV5647_GAIN_MAX_MDB]
  norm_num
  rcases lt_or_le g 0 with h0 | h0
  · have hc : max 0 (min g 4800) = 0 := by omega
    simp [h0, hc]
  · rcases le_or_lt g 4800 with h1 | h1
    · have hc : max 0 (min g 4800) = g := by omega
      have h2 : ¬ g < 0 := by omega
      have h3 : ¬ 4800 < g := by omega
      simp only [h2, h3, if_false, hc, key g h0]
      omega
    · have hc : max 0 (min g 4800) = 4800 := by omega
      have h2 : ¬ g < 0 := by omega
      simp [h2, h1, hc]
      rfl

lemma SetGain_code_bounds (g : Int) :
    0x10 ≤ OV5647_SetGain_code g ∧ OV5647_SetGain_code g ≤ 0xF8 := by
  have h := SetGain_code_eq g
  omega

lemma SetGain_code_mono (g1 g2 : Int) (h : g1 ≤ g2) :
    OV5647_SetGain_code g1 ≤ OV5647_SetGain_code g2 := by
  have h1 := SetGain_code_eq g1
  have h2 := SetGain_code_eq g2
  omega

lemma gainCodeSpec_eq (g : Int) : gainCodeSpec g = (OV5647_SetGain_code g : Int) := by
  rw [SetGain_code_eq]
  unfold gainCodeSpec
  rw [Int.tdiv_eq_ediv (by omega) (by norm_num)]
  norm_num

/-- C9: for every gain input (any integer, so every int32) and a bus whose writes
all succeed, `OV5647_SetGain` returns OK and appends exactly two writes, first
`0x350A` with the high byte and then `0x350B` with the low byte of
`code = 0x10 + clamp(g, 0, 4800) * (0xF8 - 0x10) / 4800` (truncating division),
which is the code the function computes; gain 0 gives `0x10`, gain 4800 gives
`0xF8`. -/
theorem SetGain_writes_linear_code (pObj : OV5647_Object_t) (g : Int) (tr : Trace)
    (hw : WritesSucceed pObj.Ctx) :
    OV5647_SetGain pObj g tr
      = (OV5647_OK, tr ++ [BusOp.write 0x350A ((gainCodeSpec g).toNat / 256 % 256) 1,
                          BusOp.write 0x350B ((gainCodeSpec g).toNat % 256) 1]) ∧
    (OV5647_SetGain_code g : Int) = gainCodeSpec g ∧
    OV5647_SetGain_code 0 = 0x10 ∧
    OV5647_SetGain_code 4800 = 0xF8 := by
  have hc : (gainCodeSpec g).toNat = OV5647_SetGain_code g := by
    rw [gainCodeSpec_eq]; exact Int.toNat_natCast _
  refine ⟨?_, (gainCodeSpec_eq g).symm, by decide, by decide⟩
  rw [hc]
  simp only [OV5647_SetGain, ov5647_write_reg, hw _ _ _ _, (byte_split _).1, (byte_split _).2,
    OV5647_REG_GAIN_H, OV5647_REG_GAIN_L]
  simp

theorem SetGain_writes_linear_code_witness :
    OV5647_SetGain ⟨goodCtx, 1⟩ 2400 []
      = (OV5647_OK, [BusOp.write 0x350A 0x00 1, BusOp.write 0x350B 0x84 1]) :=
  (SetGain_writes_linear_code ⟨goodCtx, 1⟩ 2400 [] (fun _ _ _ _ => rfl)).1

/-- C10: the code computed by `OV5647_SetGain` is monotonic non-decreasing over
all integer inputs (so over all of int32, below 0 and above 4800 included), it
always lies in `[0x10, 0xF8]`, and therefore the high byte is 0: the first
operation `OV5647_SetGain` issues is always the write `0x350A = 0x00`. -/
theorem SetGain_code_monotone_bounded (g1 g2 : Int) (h : g1 ≤ g2) :
    OV5647_SetGain_code g1 ≤ OV5647_SetGain_code g2 ∧
    (∀ g : Int, 0x10 ≤ OV5647_SetGain_code g ∧ OV5647_SetGain_code g ≤ 0xF8 ∧
      (OV5647_SetGain_code g >>> 8) &&& 0xFF = 0 ∧
      ∀ (pObj : OV5647_Object_t) (tr : Trace), ∃ rest,
        (OV5647_SetGain pObj g tr).2 = tr ++ BusOp.write 0x350A 0x00 1 :: rest) := by
  refine ⟨SetGain_code_mono g1 g2 h, fun g => ?_⟩
  have hb := SetGain_code_bounds g
  have hh : (OV5647_SetGain_code g >>> 8) &&& 0xFF = 0 := by
    rw [(byte_split _).1]; omega
  refine ⟨hb.1, hb.2, hh, fun pObj tr => ?_⟩
  simp only [OV5647_SetGain, ov5647_write_reg, hh, OV5647_REG_GAIN_H, OV5647_REG_GAIN_L]
  split_ifs
  · exact ⟨[], rfl⟩
  · exact ⟨[BusOp.write 0x350B (OV5647_SetGain_code g &&& 0xFF) 1], by simp⟩
  · exact ⟨[BusOp.write 0x350B (OV5647_SetGain_code g &&& 0xFF) 1], by simp⟩

theorem SetGain_code_monotone_bounded_witness :
    OV5647_SetGain_code (-2147483648) ≤ OV5647_SetGain_code 2147483647 ∧
    OV5647_SetGain_code (-2147483648) = 0x10 ∧ OV5647_SetGain_code 2147483647 = 0xF8 :=
  ⟨(SetGain_code_monotone_bounded (-2147483648) 2147483647 (by decide)).1,
    by decide, by decide⟩

/-! ## Exposure control -/

lemma and_0xF0 (y : Nat) : y &&& 0xF0 = (y / 16 % 16) * 16 := by
  apply Nat.eq_of_testBit_eq
  intro i
  have e1 : (0xF0 : Nat) = 2 ^ 4 * (2 ^ 4 - 1) := by norm_num
  have e2 : (y / 16 % 16) * 16 = 2 ^ 4 * ((y >>> 4) % 2 ^ 4) := by
    rw [Nat.shiftRight_eq_div_pow]; omega
  rw [Nat.testBit_and, e1, e2, Nat.testBit_mul_pow_two, Nat.testBit_mul_pow_two,
    Nat.testBit_two_pow_sub_one, Nat.testBit_mod_two_pow, Nat.testBit_shiftRight]
  by_cases h : 4 ≤ i
  · have : 4 + (i - 4) = i := by omega
    simp [h, this, Bool.and_comm]
  · simp [h]

lemma or_shift_bytes (h m l : Nat) (hm : m < 2 ^ 8) (hl : l < 2 ^ 8) :
    (h <<< 16) ||| (m <<< 8) ||| l = h * 65536 + m * 256 + l := by
  have h1 : 2 ^ 8 * m + l = 2 ^ 8 * m ||| l := Nat.mul_add_lt_is_or hl m
  have h2 : 2 ^ 16 * h + (2 ^ 8 * m + l) = 2 ^ 16 * h ||| (2 ^ 8 * m + l) :=
    Nat.mul_add_lt_is_or (by omega) h
  rw [Nat.or_assoc, Nat.shiftLeft_eq, Nat.shiftLeft_eq, Nat.mul_comm _ (2 ^ 8),
    Nat.mul_comm _ (2 ^ 16), ← h1, ← h2]
  omega

lemma SetExposure_bytes_eq (lines : Nat) :
    OV5647_SetExposure_bytes lines
      = (lines / 4096 % 16, lines / 16 % 256, (lines * 16 % 2 ^ 32) / 16 % 16 * 16) := by
  have hh : (lines >>> 12) &&& 0x0F = lines / 4096 % 16 := by
    rw [Nat.shiftRight_eq_div_pow]
    exact Nat.and_pow_two_sub_one_eq_mod _ 4
  have hm : (lines >>> 4) &&& 0xFF = lines / 16 % 256 := by
    rw [Nat.shiftRight_eq_div_pow]
    exact Nat.and_pow_two_sub_one_eq_mod _ 8
  have hl : ((lines <<< 4) % 2 ^ 32) &&& 0xF0 = (lines * 16 % 2 ^ 32) / 16 % 16 * 16 := by
    rw [and_0xF0, Nat.shiftLeft_eq]
  unfold OV5647_SetExposure_bytes
  rw [hh, hm, hl]
  refine Prod.ext ?_ (Prod.ext ?_ ?_) <;> simp only [] <;> omega

lemma SetExposure_write_ok (pObj : OV5647_Object_t) (lines : Nat) (tr : Trace)
    (hw : WritesSucceed pObj.Ctx) :
    OV5647_SetExposure_write pObj lines tr
      = (OV5647_OK, tr ++ [BusOp.write 0x3500 (OV5647_SetExposure_bytes lines).1 1,
          BusOp.write 0x3501 (OV5647_SetExposure_bytes lines).2.1 1,
          BusOp.write 0x3502 (OV5647_SetExposure_bytes lines).2.2 1]) := by
  simp [OV5647_SetExposure_write, ov5647_write_reg, hw _ _ _ _, OV5647_REG_EXPOSURE_H,
    OV5647_REG_EXPOSURE_M, OV5647_REG_EXPOSURE_L]

lemma SetExposure_unfold (pObj : OV5647_Object_t) (e : Int) (st : State) :
    OV5647_SetExposure pObj e st
      = (OV5647_SetExposure_lines st e).map (fun lines =>
          ((OV5647_SetExposure_write pObj lines st.trace).1,
            { st with trace := (OV5647_SetExposure_write pObj lines st.trace).2 })) := by
  unfold OV5647_SetExposure
  simp only [ov5647_update_timing_cache, ite_self]
  cases OV5647_SetExposure_lines st e <;> rfl

/-- C11: with the cache holding HTS 2416, VTS 1104 and pixel clock 80017920,
`OV5647_SetExposure(100000)` computes 3312 lines, clamps them to
`1104 - 8 = 1096`, encodes 1096 as the bytes `0x00`, `0x44`, `0x80` (low nibble
of the last one 0) and, on a bus whose writes succeed, returns OK after
writing them to `0x3500`, `0x3501`, `0x3502` in that order. -/
theorem SetExposure_100ms_at_1080p (pObj : OV5647_Object_t) (st : State)
    (hh : st.s_hts = 2416) (hv : st.s_vts = 1104) (hp : st.s_pclk = 80017920)
    (hw : WritesSucceed pObj.Ctx) :
    OV5647_SetExposure_rounded st 100000 = some 3312 ∧
    OV5647_SetExposure_lines st 100000 = some 1096 ∧
    OV5647_SetExposure_bytes 1096 = (0x00, 0x44, 0x80) ∧
    (OV5647_SetExposure_bytes 1096).2.2 &&& 0x0F = 0 ∧
    OV5647_SetExposure pObj 100000 st
      = some (OV5647_OK, { st with trace := st.trace ++
          [BusOp.write 0x3500 0x00 1, BusOp.write 0x3501 0x44 1,
            BusOp.write 0x3502 0x80 1] }) := by
  have hr : OV5647_SetExposure_rounded st 100000 = some 3312 := by
    simp [OV5647_SetExposure_rounded, hh, hp, OV5647_EXPOSURE_MIN_US]
  have hl : OV5647_SetExposure_lines st 100000 = some 1096 := by
    simp [OV5647_SetExposure_lines, hr, OV5647_SetExposure_clamp, hv]
  have hb : OV5647_SetExposure_bytes 1096 = (0x00, 0x44, 0x80) := by decide
  refine ⟨hr, hl, hb, by decide, ?_⟩
  rw [SetExposure_unfold, hl, Option.map_some', SetExposure_write_ok pObj _ _ hw, hb]

theorem SetExposure_100ms_at_1080p_witness :
    OV5647_SetExposure ⟨goodCtx, 1⟩ 100000 cache1080p
      = some (OV5647_OK, { cache1080p with trace :=
          [BusOp.write 0x3500 0x00 1, BusOp.write 0x3501 0x44 1,
            BusOp.write 0x3502 0x80 1] }) :=
  (SetExposure_100ms_at_1080p ⟨goodCtx, 1⟩ cache1080p rfl rfl rfl
    (fun _ _ _ _ => rfl)).2.2.2.2

lemma roundHalfUp_natCast (N hts : Nat) :
    roundHalfUp (N : Int) ((hts : Int) * 1000000)
      = (((N + hts * 500000) / (hts * 1000000) : Nat) : Int) := by
  unfold roundHalfUp
  have h1 : 2 * (N : Int) + (hts : Int) * 1000000 = ((2 * (N + hts * 500000) : Nat) : Int) := by
    push_cast; ring
  have h2 : 2 * ((hts : Int) * 1000000) = ((2 * (hts * 1000000) : Nat) : Int) := by
    push_cast; ring
  rw [h1, h2, ← Int.natCast_div, Nat.mul_div_mul_left _ _ (by norm_num : 0 < 2)]

lemma SetExposure_rounded_eq (st : State) (e : Int) (n : Nat) (hn : max e 50 = (n : Int))
    (he : e < 2 ^ 31) (hh : st.s_hts ≠ 0) (hh16 : st.s_hts < 2 ^ 16)
    (hp32 : st.s_pclk < 2 ^ 32) :
    OV5647_SetExposure_rounded st e
      = some ((n * st.s_pclk + st.s_hts * 500000) / (st.s_hts * 1000000) % 2 ^ 32) := by
  have hn31 : n < 2 ^ 31 := by omega
  have hN : n * st.s_pclk < 2 ^ 63 := by
    calc n * st.s_pclk < 2 ^ 31 * 2 ^ 32 :=
          Nat.mul_lt_mul_of_lt_of_le (by omega) (by omega) (by norm_num)
      _ = 2 ^ 63 := by norm_num
  have hclamp : (if e < OV5647_EXPOSURE_MIN_US then OV5647_EXPOSURE_MIN_US else e) = (n : Int) := by
    rw [← hn]; unfold OV5647_EXPOSURE_MIN_US; split_ifs <;> omega
  have hcast : (((n : Int)) % 2 ^ 64).toNat = n := by omega
  have hnum : n * st.s_pclk % 2 ^ 64 = n * st.s_pclk := Nat.mod_eq_of_lt (by omega)
  have hden : st.s_hts * 1000000 % 2 ^ 64 = st.s_hts * 1000000 := Nat.mod_eq_of_lt (by omega)
  have hden0 : st.s_hts * 1000000 ≠ 0 := by omega
  have hhalf : st.s_hts * 1000000 / 2 = st.s_hts * 500000 := by omega
  have hsum : (n * st.s_pclk + st.s_hts * 500000) % 2 ^ 64
      = n * st.s_pclk + st.s_hts * 500000 := Nat.mod_eq_of_lt (by omega)
  unfold OV5647_SetExposure_rounded
  simp only [hclamp, hcast, hnum, hden, hden0, if_false, hhalf, hsum]

lemma SetExposure_clamp_range (st : State) (q : Nat) (hv : 8 < st.s_vts)
    (hv16 : st.s_vts < 2 ^ 16) :
    1 ≤ OV5647_SetExposure_clamp st q ∧ OV5647_SetExposure_clamp st q ≤ st.s_vts - 8 ∧
    (OV5647_SetExposure_clamp st q : Int) = min (max (q : Int) 1) ((st.s_vts : Int) - 8) := by
  have hcap : (st.s_vts + 2 ^ 32 - 8) % 2 ^ 32 = st.s_vts - 8 := by omega
  unfold OV5647_SetExposure_clamp
  simp only [hcap]
  split_ifs <;> omega

/-- C12 (as stated, refuted): with HTS 2416, pixel clock 80017920 and
`frame_length_lines = 8`, all non-zero, `OV5647_SetExposure(100000)` encodes
0 lines, which is below 1; and with HTS 1, VTS 1104 and pixel clock 2^31 the
rounded quotient of `OV5647_SetExposure(2000000)` is 2^32, which the
`uint32_t lines` holds as 0, so 1 line is encoded where the formula gives
1096. -/
theorem SetExposure_lines_not_always_in_range :
    OV5647_SetExposure_lines { cache1080p with s_vts := 8 } 100000 = some 0 ∧
    roundHalfUp (max 2000000 50 * 2147483648) (1 * 1000000) = 2 ^ 32 ∧
    OV5647_SetExposure_lines { cache1080p with s_hts := 1, s_pclk := 2147483648 } 2000000
      = some 1 ∧
    exposureLinesSpec { cache1080p with s_hts := 1, s_pclk := 2147483648 } 2000000 = 1096 := by
  refine ⟨by decide, by decide, by decide, by decide⟩

/-- C12 (amended): for every cache with `line_length_pck` and `pixel_clock_hz`
non-zero and `frame_length_lines` above 8, and every int32 exposure input,
`OV5647_SetExposure` encodes a line count with
`1 ≤ lines ≤ frame_length_lines - 8`; and whenever the round-half-up quotient
of `max(exposure_us, 50) * pixel_clock_hz / (line_length_pck * 1000000)` is
below 2^32, the count is that quotient raised to at least 1 and then capped
at `frame_length_lines - 8`. -/
theorem SetExposure_lines_in_range (st : State) (e : Int)
    (he : -2 ^ 31 ≤ e ∧ e < 2 ^ 31) (hwt : st.WellTyped)
    (hh : st.s_hts ≠ 0) (_hp : st.s_pclk ≠ 0) (hv : 8 < st.s_vts) :
    ∃ lines, OV5647_SetExposure_lines st e = some lines ∧
      1 ≤ lines ∧ lines ≤ st.s_vts - 8 ∧
      (roundHalfUp (max e 50 * st.s_pclk) (st.s_hts * 1000000) < 2 ^ 32 →
        (lines : Int) = exposureLinesSpec st e) := by
  obtain ⟨n, hn⟩ : ∃ n : Nat, max e 50 = (n : Int) :=
    ⟨(max e 50).toNat, (Int.toNat_of_nonneg (by omega)).symm⟩
  have hr := SetExposure_rounded_eq st e n hn he.2 hh hwt.1 hwt.2.2.1
  have hround : roundHalfUp (max e 50 * st.s_pclk) (st.s_hts * 1000000)
      = (((n * st.s_pclk + st.s_hts * 500000) / (st.s_hts * 1000000) : Nat) : Int) := by
    rw [hn, ← roundHalfUp_natCast]; push_cast; rfl
  have hc := SetExposure_clamp_range st
    ((n * st.s_pclk + st.s_hts * 500000) / (st.s_hts * 1000000) % 2 ^ 32) hv hwt.2.1
  refine ⟨_, by rw [OV5647_SetExposure_lines, hr]; rfl, hc.1, hc.2.1, ?_⟩
  intro hlt
  rw [hc.2.2]
  unfold exposureLinesSpec
  rw [hround] at hlt ⊢
  have hq : (n * st.s_pclk + st.s_hts * 500000) / (st.s_hts * 1000000) < 2 ^ 32 := by
    exact_mod_cast hlt
  rw [Nat.mod_eq_of_lt hq]

theorem SetExposure_lines_in_range_witness :
    ∃ lines, OV5647_SetExposure_lines cache1080p 20000 = some lines ∧
      1 ≤ lines ∧ lines ≤ cache1080p.s_vts - 8 ∧
      (roundHalfUp (max 20000 50 * cache1080p.s_pclk) (cache1080p.s_hts * 1000000) < 2 ^ 32 →
        (lines : Int) = exposureLinesSpec cache1080p 20000) :=
  SetExposure_lines_in_range cache1080p 20000 (by decide)
    ⟨by decide, by decide, by decide, by decide, by decide⟩ (by decide) (by decide) (by decide)

/-- C13 (as stated, refuted): the line count 65536 is below 2^20, yet its bytes
are `h = 0`, `m = 0`, `l = 0`, so `(h << 16) | (m << 8) | l = 0` and not
`65536 << 4`; `OV5647_SetExposure` really encodes such counts, for instance
66240 lines for 2000000 us when `s_vts = 0` switches the cap off, written as
`0x3500=0x00`, `0x3501=0x2C`, `0x3502=0x00`. -/
theorem exposure_encoding_drops_bit_16 :
    65536 < 2 ^ 20 ∧
    OV5647_SetExposure_bytes 65536 = (0, 0, 0) ∧
    ((OV5647_SetExposure_bytes 65536).1 <<< 16)
        ||| ((OV5647_SetExposure_bytes 65536).2.1 <<< 8)
        ||| (OV5647_SetExposure_bytes 65536).2.2 ≠ 65536 <<< 4 ∧
    OV5647_SetExposure_lines { cache1080p with s_vts := 0 } 2000000 = some 66240 ∧
    OV5647_SetExposure ⟨goodCtx, 1⟩ 2000000 { cache1080p with s_vts := 0 }
      = some (OV5647_OK, { cache1080p with s_vts := 0, trace :=
          [BusOp.write 0x3500 0x00 1, BusOp.write 0x3501 0x2C 1,
            BusOp.write 0x3502 0x00 1] }) := by
  refine ⟨by decide, by decide, by decide, by decide, ?_⟩
  have hl : OV5647_SetExposure_lines { cache1080p with s_vts := 0 } 2000000 = some 66240 := by
    decide
  have hb : OV5647_SetExposure_bytes 66240 = (0x00, 0x2C, 0x00) := by decide
  rw [SetExposure_unfold, hl, Option.map_some',
    SetExposure_write_ok ⟨goodCtx, 1⟩ _ _ (fun _ _ _ _ => rfl), hb]
  rfl

/-- C13 (amended): the encoding is lossless for every line count below 2^16:
with `h`, `m`, `l` the bytes for `0x3500`, `0x3501`, `0x3502`,
`(h << 16) | (m << 8) | l = lines << 4`; and for every line count whatsoever
`h` is at most `0x0F` and the low 4 bits of `l` are zero. -/
theorem exposure_encoding_lossless_16bit (lines : Nat) (hlt : lines < 2 ^ 16) :
    ((OV5647_SetExposure_bytes lines).1 <<< 16)
        ||| ((OV5647_SetExposure_bytes lines).2.1 <<< 8)
        ||| (OV5647_SetExposure_bytes lines).2.2 = lines <<< 4 ∧
    (∀ n : Nat, (OV5647_SetExposure_bytes n).1 ≤ 0x0F ∧
      (OV5647_SetExposure_bytes n).2.2 &&& 0x0F = 0) := by
  constructor
  · rw [SetExposure_bytes_eq]
    simp only []
    rw [or_shift_bytes _ _ _ (by omega) (by omega), Nat.shiftLeft_eq]
    omega
  · intro n
    rw [SetExposure_bytes_eq]
    simp only []
    refine ⟨by omega, ?_⟩
    have h := Nat.and_pow_two_sub_one_eq_mod ((n * 16 % 2 ^ 32) / 16 % 16 * 16) 4
    have h2 : (n * 16 % 2 ^ 32) / 16 % 16 * 16 % 2 ^ 4 = 0 := by omega
    rw [h2] at h
    exact h

theorem exposure_encoding_lossless_16bit_witness :
    ((OV5647_SetExposure_bytes 1096).1 <<< 16)
        ||| ((OV5647_SetExposure_bytes 1096).2.1 <<< 8)
        ||| (OV5647_SetExposure_bytes 1096).2.2 = 1096 <<< 4 :=
  (exposure_encoding_lossless_16bit 1096 (by decide)).1

lemma SetExposure_hts_zero (pObj : OV5647_Object_t) (e : Int) (st : State)
    (h : st.s_hts = 0) : OV5647_SetExposure pObj e st = none := by
  have hr : OV5647_SetExposure_rounded st e = none := by
    unfold OV5647_SetExposure_rounded
    simp only [h]
    rfl
  rw [SetExposure_unfold, OV5647_SetExposure_lines, hr]
  rfl

/-- C14: at the boot state, where the timing cache is unpopulated (`s_hts = 0`,
`s_vts = 0`, `s_pclk = 0`), `OV5647_SetExposure` returns no error for any
object, bus or exposure input: the refresh it calls leaves the cache at zero
and the conversion then divides by `denom = s_hts * 1000000 = 0`; the same
happens after a successful `OV5647_Init`, which leaves the cache at zero. -/
theorem SetExposure_divides_by_zero_at_boot (pObj : OV5647_Object_t) (e : Int) :
    (State.boot.s_hts = 0 ∧ State.boot.s_vts = 0 ∧ State.boot.s_pclk = 0) ∧
    ov5647_update_timing_cache pObj 30 State.boot = State.boot ∧
    OV5647_SetExposure_rounded State.boot e = none ∧
    OV5647_SetExposure pObj e State.boot = none ∧
    (OV5647_Init ⟨goodCtx, 0⟩ OV5647_R1920_1080 0 State.boot).1 = OV5647_OK ∧
    OV5647_SetExposure ⟨goodCtx, 1⟩ e
      (OV5647_Init ⟨goodCtx, 0⟩ OV5647_R1920_1080 0 State.boot).2.2 = none := by
  have hi := Init_success ⟨goodCtx, 0⟩ 0 State.boot rfl rfl rfl (fun _ _ _ _ => rfl)
  have hc := Init_keeps_timing_cache ⟨goodCtx, 0⟩ OV5647_R1920_1080 0 State.boot
  have hb := SetExposure_hts_zero pObj e State.boot rfl
  have hr : OV5647_SetExposure_rounded State.boot e = none := by
    unfold OV5647_SetExposure_rounded
    rfl
  exact ⟨⟨rfl, rfl, rfl⟩, rfl, hr, hb, by rw [hi],
    SetExposure_hts_zero ⟨goodCtx, 1⟩ e _ hc.1⟩

/-! ## Test pattern -/

/-- C15: for every mode, `OV5647_SetTestPattern` appends exactly one operation to
the trace, a one-byte write to `0x503D`, of `0x80` when `mode >= 0` (whatever
its magnitude) and of `0x00` when `mode < 0`; its status is OK exactly when
that write reports success, and ERROR otherwise. -/
theorem SetTestPattern_single_write (pObj : OV5647_Object_t) (mode : Int) (tr : Trace) :
    (OV5647_SetTestPattern pObj mode tr).2
      = tr ++ [BusOp.write 0x503D (if 0 ≤ mode then 0x80 else 0x00) 1] ∧
    ((OV5647_SetTestPattern pObj mode tr).1 = OV5647_OK ↔
      pObj.Ctx.WriteReg tr 0x503D (if 0 ≤ mode then 0x80 else 0x00) 1 = 0) ∧
    ((OV5647_SetTestPattern pObj mode tr).1 = OV5647_OK ∨
      (OV5647_SetTestPattern pObj mode tr).1 = OV5647_ERROR) := by
  by_cases hm : 0 ≤ mode
  · by_cases hw : pObj.Ctx.WriteReg tr 0x503D 0x80 1 = 0
    · simp [OV5647_SetTestPattern, hm, test_pattern_enable_bar, OV5647_WriteTable,
        ov5647_write_reg, OV5647_REG_TEST_PATTERN, hw, OV5647_OK, OV5647_ERROR]
    · simp [OV5647_SetTestPattern, hm, test_pattern_enable_bar, OV5647_WriteTable,
        ov5647_write_reg, OV5647_REG_TEST_PATTERN, hw, OV5647_OK, OV5647_ERROR]
  · by_cases hw : pObj.Ctx.WriteReg tr 0x503D 0x00 1 = 0
    · simp [OV5647_SetTestPattern, hm, test_pattern_disable, OV5647_WriteTable,
        ov5647_write_reg, OV5647_REG_TEST_PATTERN, hw, OV5647_OK, OV5647_ERROR]
    · simp [OV5647_SetTestPattern, hm, test_pattern_disable, OV5647_WriteTable,
        ov5647_write_reg, OV5647_REG_TEST_PATTERN, hw, OV5647_OK, OV5647_ERROR]

/-! ## Init with an unsupported resolution -/

/-- C16 (as stated, refuted): on an Uninitialized object whose sensor answers the
identity reads correctly, `OV5647_Init` with the unsupported resolution
`OV5647_R2592_1944` returns ERROR only after it has issued the two identity
reads, so there is bus traffic. -/
theorem Init_unsupported_resolution_reads_identity :
    OV5647_R2592_1944 ≠ OV5647_R1920_1080 ∧
    (OV5647_Init ⟨goodCtx, 0⟩ OV5647_R2592_1944 0 State.boot).1 = OV5647_ERROR ∧
    (OV5647_Init ⟨goodCtx, 0⟩ OV5647_R2592_1944 0 State.boot).2.2.trace
      = [BusOp.read 0x300A 1, BusOp.read 0x300B 1] ∧
    (OV5647_Init ⟨goodCtx, 0⟩ OV5647_R2592_1944 0 State.boot).2.2.trace ≠ [] := by
  refine ⟨by decide, by decide, by decide, by decide⟩

/-- C16 (amended): for every Uninitialized device and every resolution other than
`OV5647_R1920_1080`, `OV5647_Init` returns ERROR, issues no register write (the
only bus traffic is the one or two identity reads that come before the
resolution is examined) and leaves the object unchanged, hence
Uninitialized. -/
theorem Init_unsupported_resolution (pObj : OV5647_Object_t) (Resolution PixelFormat : Nat)
    (st : State) (hu : pObj.IsInitialized = 0) (hres : Resolution ≠ OV5647_R1920_1080) :
    (OV5647_Init pObj Resolution PixelFormat st).1 = OV5647_ERROR ∧
    ((OV5647_Init pObj Resolution PixelFormat st).2.2.trace
        = st.trace ++ [BusOp.read 0x300A 1] ∨
      (OV5647_Init pObj Resolution PixelFormat st).2.2.trace
        = st.trace ++ [BusOp.read 0x300A 1, BusOp.read 0x300B 1]) ∧
    writesOf (OV5647_Init pObj Resolution PixelFormat st).2.2.trace = writesOf st.trace ∧
    (OV5647_Init pObj Resolution PixelFormat st).2.1 = pObj ∧
    (OV5647_Init pObj Resolution PixelFormat st).2.1.IsInitialized = 0 := by
  unfold OV5647_Init
  simp only [ov5647_read_reg, OV5647_REG_CHIP_ID_HIGH, OV5647_REG_CHIP_ID_LOW]
  split_ifs with h1 h2 h3 h4
  · exact absurd hu h1
  · simp [writesOf_append, writesOf, hu]
  · simp [writesOf_append, writesOf, hu]
  · simp [writesOf_append, writesOf, hu]
  · simp [writesOf_append, writesOf, hu]

theorem Init_unsupported_resolution_witness :
    (OV5647_Init ⟨goodCtx, 0⟩ 6 0 State.boot).1 = OV5647_ERROR ∧
    writesOf (OV5647_Init ⟨goodCtx, 0⟩ 6 0 State.boot).2.2.trace = [] ∧
    (OV5647_Init ⟨goodCtx, 0⟩ 6 0 State.boot).2.1.IsInitialized = 0 :=
  have h := Init_unsupported_resolution ⟨goodCtx, 0⟩ 6 0 State.boot rfl (by decide)
  ⟨h.1, h.2.2.1, h.2.2.2.2⟩

/-! ## Orientation and framerate -/

/-- C17: for every flags value and every state, `OV5647_MirrorFlipConfig` issues
no bus operation at all, neither a read of `0x3820`/`0x3821` nor a write back,
and returns no value; so with `OV5647_MIRROR_FLIP` on a Ready sensor the trace
stays empty. -/
theorem MirrorFlipConfig_touches_nothing (pObj : OV5647_Object_t) (Config : Nat) (st : State) :
    (OV5647_MirrorFlipConfig pObj Config st).1 = none ∧
    (OV5647_MirrorFlipConfig pObj Config st).2 = st ∧
    (OV5647_MirrorFlipConfig ⟨goodCtx, 1⟩ OV5647_MIRROR_FLIP State.boot).2.trace = [] :=
  ⟨rfl, rfl, rfl⟩

/-- C18: for every requested rate and every state, `OV5647_SetFramerate` issues no
bus operation, leaves the timing cache as it was and returns no value; so with
the 1920x1080 cache and a request for 15 fps nothing is written to
`0x380E`/`0x380F`, `s_vts` stays 1104 and `s_fps` stays 30. -/
theorem SetFramerate_touches_nothing (pObj : OV5647_Object_t) (fps_target : Int) (st : State) :
    (OV5647_SetFramerate pObj fps_target st).1 = none ∧
    (OV5647_SetFramerate pObj fps_target st).2 = st ∧
    (OV5647_SetFramerate ⟨goodCtx, 1⟩ 15 cache1080p).2.trace = [] ∧
    (OV5647_SetFramerate ⟨goodCtx, 1⟩ 15 cache1080p).2.s_vts = 1104 ∧
    (OV5647_SetFramerate ⟨goodCtx, 1⟩ 15 cache1080p).2.s_fps = 30 ∧
    (OV5647_SetFramerate ⟨goodCtx, 1⟩ 15 cache1080p).2.s_fps ≠ 15 :=
  ⟨rfl, rfl, rfl, rfl, rfl, by decide⟩

/-! ## Verify-mode table engine -/

lemma is_verify_skipped_iff (addr : Nat) :
    ov5647_is_verify_skipped addr ≠ 0 ↔ addr ∈ ov5647_verify_skip := by
  unfold ov5647_is_verify_skipped
  split_ifs with h
  · simp only [List.any_eq_true, beq_iff_eq] at h
    obtain ⟨a, ha, rfl⟩ := h
    simp [ha]
  · simp only [List.any_eq_true, beq_iff_eq, not_exists, not_and] at h
    simp only [ne_eq, not_true_eq_false, false_iff]
    exact fun hmem => h addr hmem rfl

lemma write_verify_eq (pObj : OV5647_Object_t) (addr val : Nat) (tr : Trace) :
    ov5647_write_verify pObj addr val tr
      = if pObj.Ctx.WriteReg tr addr val 1 ≠ 0 then
          (OV5647_ERROR, tr ++ [BusOp.write addr val 1])
        else if addr = 0x0103 ∨ addr ∈ ov5647_verify_skip then
          (OV5647_OK, tr ++ [BusOp.write addr val 1])
        else if (pObj.Ctx.ReadReg (tr ++ [BusOp.write addr val 1]) addr 0x00 1).1 ≠ 0 then
          (OV5647_ERROR, tr ++ [BusOp.write addr val 1, BusOp.read addr 1])
        else (OV5647_OK, tr ++ [BusOp.write addr val 1, BusOp.read addr 1]) := by
  have hs := is_verify_skipped_iff addr
  unfold ov5647_write_verify
  simp only [ov5647_write_reg, ov5647_read_reg]
  by_cases h1 : pObj.Ctx.WriteReg tr addr val 1 = 0
  · by_cases h2 : addr = 0x0103
    · simp [h1, h2]
    · by_cases h3 : addr ∈ ov5647_verify_skip
      · simp [h1, h2, h3, hs.mpr h3]
      · have h4 : ¬ ov5647_is_verify_skipped addr ≠ 0 := fun h => h3 (hs.mp h)
        by_cases h5 : (pObj.Ctx.ReadReg (tr ++ [BusOp.write addr val 1]) addr 0x00 1).1 = 0
        · simp [h1, h2, h3, h4, h5]
        · simp [h1, h2, h3, h4, h5]
  · simp [h1]

/-- C19: `ov5647_write_verify` issues exactly one write per call; after a write
that succeeded it reads the same address back exactly once, except for `0x0103`
and the addresses of the skip list, for which it reads nothing; and it returns
OK exactly when the write and, where one is performed, the read-back report
success, the value read back playing no part. -/
theorem write_verify_single_attempt (pObj : OV5647_Object_t) (addr val : Nat) (tr : Trace) :
    (ov5647_write_verify pObj addr val tr).2
      = tr ++ BusOp.write addr val 1 ::
          (if pObj.Ctx.WriteReg tr addr val 1 = 0 ∧ addr ≠ 0x0103 ∧ addr ∉ ov5647_verify_skip
            then [BusOp.read addr 1] else []) ∧
    ((ov5647_write_verify pObj addr val tr).1 = OV5647_OK ↔
      pObj.Ctx.WriteReg tr addr val 1 = 0 ∧
        (addr = 0x0103 ∨ addr ∈ ov5647_verify_skip ∨
          (pObj.Ctx.ReadReg (tr ++ [BusOp.write addr val 1]) addr 0x00 1).1 = 0)) ∧
    (writesOf (ov5647_write_verify pObj addr val tr).2).length = (writesOf tr).length + 1 := by
  rw [write_verify_eq]
  by_cases h1 : pObj.Ctx.WriteReg tr addr val 1 = 0
  · by_cases h2 : addr = 0x0103 ∨ addr ∈ ov5647_verify_skip
    · rcases h2 with h2 | h2
      · subst h2
        simp [h1, writesOf_append, writesOf, OV5647_OK]
      · simp [h1, h2, writesOf_append, writesOf, OV5647_OK]
    · have h3 : addr ≠ 0x0103 := fun h => h2 (Or.inl h)
      have h4 : addr ∉ ov5647_verify_skip := fun h => h2 (Or.inr h)
      by_cases h5 : (pObj.Ctx.ReadReg (tr ++ [BusOp.write addr val 1]) addr 0x00 1).1 = 0
      · simp [h1, h3, h4, h5, writesOf_append, writesOf, OV5647_OK]
      · simp [h1, h3, h4, h5, writesOf_append, writesOf, OV5647_OK, OV5647_ERROR]
  · simp [h1, writesOf_append, writesOf, OV5647_OK, OV5647_ERROR]

lemma WriteTable_Verify_all_ok (pObj : OV5647_Object_t) (hw : WritesSucceed pObj.Ctx)
    (hr : ReadsSucceed pObj.Ctx) :
    ∀ (regs : List regval) (tr : Trace),
      OV5647_WriteTable_Verify pObj regs tr = (OV5647_OK, tr ++ verifyOps regs) := by
  intro regs
  induction regs with
  | nil => intro tr; simp [OV5647_WriteTable_Verify, verifyOps]
  | cons r rest ih =>
    intro tr
    unfold OV5647_WriteTable_Verify verifyOps
    rw [write_verify_eq]
    by_cases hs : r.addr = 0x0103 ∨ r.addr ∈ ov5647_verify_skip
    · simp only [hw _ _ _ _, hs, ne_eq, not_true_eq_false, if_false, if_true, ih]
      simp [entryWrite]
    · simp only [hw _ _ _ _, hr _ _ _ _, hs, ne_eq, not_true_eq_false, if_false, ih]
      simp [entryWrite]

lemma verifyOps_writes (regs : List regval) :
    (verifyOps regs).filter BusOp.isWrite = regs.map entryWrite ∧
    writesOf (verifyOps regs) = writesOf (regs.map entryWrite) := by
  induction regs with
  | nil => exact ⟨rfl, rfl⟩
  | cons r rest ih =>
    unfold verifyOps
    split_ifs
    · simp [entryWrite, BusOp.isWrite, writesOf, ih.1, ih.2]
    · simp [entryWrite, BusOp.isWrite, writesOf, ih.1, ih.2]

/-- C20: on a bus whose reads and writes all succeed, `OV5647_WriteTable_Verify`
and `OV5647_WriteTable` both return OK and issue the same sequence of
(address, value) writes, the table in order; the verify-mode trace is the
fast-mode one with a read-back inserted after each write whose address is
neither `0x0103` nor on the skip list, so dropping its reads gives the
fast-mode operations. -/
theorem WriteTable_Verify_same_writes (pObj : OV5647_Object_t) (regs : List regval)
    (tr : Trace) (hw : WritesSucceed pObj.Ctx) (hr : ReadsSucceed pObj.Ctx) :
    OV5647_WriteTable_Verify pObj regs tr = (OV5647_OK, tr ++ verifyOps regs) ∧
    OV5647_WriteTable pObj regs tr = (OV5647_OK, tr ++ regs.map entryWrite) ∧
    (OV5647_WriteTable_Verify pObj regs tr).1 = (OV5647_WriteTable pObj regs tr).1 ∧
    writesOf (OV5647_WriteTable_Verify pObj regs tr).2
      = writesOf (OV5647_WriteTable pObj regs tr).2 ∧
    (verifyOps regs).filter BusOp.isWrite = regs.map entryWrite := by
  have hv := WriteTable_Verify_all_ok pObj hw hr regs tr
  have hf := WriteTable_all_ok pObj hw regs tr
  refine ⟨hv, hf, by rw [hv, hf], ?_, (verifyOps_writes regs).1⟩
  rw [hv, hf]
  show writesOf (tr ++ verifyOps regs) = writesOf (tr ++ regs.map entryWrite)
  rw [writesOf_append, writesOf_append, (verifyOps_writes regs).2]

theorem WriteTable_Verify_same_writes_witness :
    OV5647_WriteTable_Verify ⟨goodCtx, 0⟩ ov5647_1920x1080_regs []
      = (OV5647_OK, [] ++ verifyOps ov5647_1920x1080_regs) ∧
    writesOf (OV5647_WriteTable_Verify ⟨goodCtx, 0⟩ ov5647_1920x1080_regs []).2
      = writesOf (OV5647_WriteTable ⟨goodCtx, 0⟩ ov5647_1920x1080_regs []).2 :=
  have h := WriteTable_Verify_same_writes ⟨goodCtx, 0⟩ ov5647_1920x1080_regs []
    (fun _ _ _ _ => rfl)
    (fun _ reg _ _ => by
      show (if reg = 0x300A then ((0 : Int), 0x56)
        else if reg = 0x300B then (0, 0x47) else (0, _)).1 = 0
      split_ifs <;> rfl)
  ⟨h.1, h.2.2.2.1⟩

/-! ## Ready if and only if Init succeeded -/

lemma WriteTable_status (pObj : OV5647_Object_t) :
    ∀ (regs : List regval) (tr : Trace),
      (OV5647_WriteTable pObj regs tr).1 = OV5647_OK ∨
        (OV5647_WriteTable pObj regs tr).1 = OV5647_ERROR := by
  intro regs
  induction regs with
  | nil => intro tr; exact Or.inl rfl
  | cons r rest ih =>
    intro tr
    unfold OV5647_WriteTable
    split_ifs
    · exact Or.inr rfl
    · exact ih _

lemma WriteTable_ok_trace (pObj : OV5647_Object_t) :
    ∀ (regs : List regval) (tr : Trace),
      (OV5647_WriteTable pObj regs tr).1 = OV5647_OK →
        (OV5647_WriteTable pObj regs tr).2 = tr ++ regs.map entryWrite := by
  intro regs
  induction regs with
  | nil => intro tr _; simp [OV5647_WriteTable]
  | cons r rest ih =>
    intro tr
    unfold OV5647_WriteTable
    split_ifs with h
    · intro hok
      have hne : OV5647_ERROR ≠ OV5647_OK := by decide
      exact absurd hok hne
    · intro hok
      rw [ih _ hok]
      simp [ov5647_write_reg, entryWrite]

/-- C21: starting from Uninitialized, for every bus and every resolution,
`OV5647_Init` ends with `IsInitialized` non-zero exactly when it returns OK;
its status is OK or ERROR, and with any status other than OK the flag is still
0; and whenever it ends Ready the resolution was `OV5647_R1920_1080` and the
trace grew by the two identity reads followed by the whole 1920x1080 table,
one write per entry in order. -/
theorem Init_ready_iff_success (pObj : OV5647_Object_t) (Resolution PixelFormat : Nat)
    (st : State) (hu : pObj.IsInitialized = 0) :
    ((OV5647_Init pObj Resolution PixelFormat st).2.1.IsInitialized ≠ 0 ↔
      (OV5647_Init pObj Resolution PixelFormat st).1 = OV5647_OK) ∧
    ((OV5647_Init pObj Resolution PixelFormat st).1 = OV5647_OK ∨
      (OV5647_Init pObj Resolution PixelFormat st).1 = OV5647_ERROR) ∧
    ((OV5647_Init pObj Resolution PixelFormat st).1 ≠ OV5647_OK →
      (OV5647_Init pObj Resolution PixelFormat st).2.1.IsInitialized = 0) ∧
    ((OV5647_Init pObj Resolution PixelFormat st).2.1.IsInitialized ≠ 0 →
      Resolution = OV5647_R1920_1080 ∧
      (OV5647_Init pObj Resolution PixelFormat st).2.2.trace
        = st.trace ++ [BusOp.read 0x300A 1, BusOp.read 0x300B 1]
            ++ ov5647_1920x1080_regs.map entryWrite) := by
  have hne : OV5647_ERROR ≠ OV5647_OK := by decide
  unfold OV5647_Init
  simp only [ov5647_read_reg, OV5647_REG_CHIP_ID_HIGH, OV5647_REG_CHIP_ID_LOW]
  split_ifs with h1 h2 h3 h4 h5 h6
  · exact absurd hu h1
  · simp [hu, hne]
  · simp [hu, hne]
  · simp [hu, hne]
  · simp [hu, hne]
  · have ht := WriteTable_ok_trace pObj ov5647_1920x1080_regs _ (not_not.mp h6)
    refine ⟨by simp, Or.inl rfl, fun h => absurd rfl h, fun _ => ⟨h5, ?_⟩⟩
    show (OV5647_WriteTable pObj ov5647_1920x1080_regs _).2 = _
    rw [ht, List.append_assoc st.trace]
    rfl
  · simp [hu, hne]

theorem Init_ready_iff_success_witness :
    (OV5647_Init ⟨flakyCtx, 0⟩ OV5647_R1920_1080 0 State.boot).1 = OV5647_ERROR ∧
    (OV5647_Init ⟨flakyCtx, 0⟩ OV5647_R1920_1080 0 State.boot).2.1.IsInitialized = 0 :=
  have h := Init_ready_iff_success ⟨flakyCtx, 0⟩ OV5647_R1920_1080 0 State.boot rfl
  have he : (OV5647_Init ⟨flakyCtx, 0⟩ OV5647_R1920_1080 0 State.boot).1 = OV5647_ERROR := by
    decide
  ⟨he, h.2.2.1 (by rw [he]; decide)⟩

/-! ## Capabilities and dispatch table -/

/-- C22: the descriptor that `OV5647_GetCapabilities` writes reports exactly gain,
exposure, mirror/flip, sensor info and test pattern as supported, and each of
them has a non-null slot in `OV5647_CAMERA_Driver`; it reports brightness,
contrast, hue, saturation, light mode, colour effect, zoom, night mode,
resolution and exposure mode as unsupported, and every slot serving one of them
is null. -/
theorem capabilities_match_dispatch (pObj : OV5647_Object_t) (c0 : OV5647_Capabilities_t) :
    ∃ caps, OV5647_GetCapabilities pObj (some c0) = (OV5647_OK, some caps) ∧
      Control.all.filter (fun ctl => Control.reported caps ctl != 0)
        = [Control.gain, Control.exposure, Control.mirrorFlip, Control.sensorInfo,
            Control.testPattern] ∧
      Control.all.filter (fun ctl => Control.reported caps ctl == 0)
        = [Control.brightness, Control.contrast, Control.hue, Control.saturation,
            Control.lightMode, Control.colorEffect, Control.zoom, Control.nightMode,
            Control.resolution, Control.exposureMode] ∧
      (∀ ctl : Control, ctl ∈ Control.all) ∧
      (∀ ctl : Control, Control.reported caps ctl ≠ 0 →
        ∀ s ∈ Control.slots OV5647_CAMERA_Driver ctl, s ≠ none) ∧
      (∀ ctl : Control, Control.reported caps ctl = 0 →
        ∀ s ∈ Control.slots OV5647_CAMERA_Driver ctl, s = none) := by
  refine ⟨_, rfl, by decide, by decide, ?_, ?_, ?_⟩
  · intro ctl; cases ctl <;> decide
  · intro ctl; cases ctl <;> decide
  · intro ctl; cases ctl <;> decide

end OV5647
